import Mathlib

/-!
Verification of the spoke base-class module (`pyanaconda/ui/gui/spokes/__init__.py`).

The Python source defines an abstract class hierarchy `Spoke`,
`StandaloneSpoke`, `NormalSpoke`, `PersonalizationSpoke` plus the discovery
helper `collect_spokes`.  This file shallowly embeds those classes and their
methods: Python classes become Lean structures of class attributes together
with an identity tag (standing for the Python class object, so that the
`self.__class__ is X` guards can be expressed), constructors become functions
returning `Except PyError`, and the side-effecting back-navigation handler
becomes an explicit state-passing function over a worker registry that also
emits a trace of events.
-/

namespace AnacondaSpokes

/-- Python exceptions raised by this module: `TypeError` (raised by the
abstract-class instantiation guards; the spec calls this condition
`AbstractInstantiationError`), `AttributeError` (raised when a
`StandaloneSpoke` sets both `preForHub` and `postForHub` — the spec's
`InvalidConfigurationError` — and also by `None.replace(...)` when a
`NormalSpoke` without a title derives its thread name), and the bare
`NotImplementedError` raised by `Spoke.apply` and `Spoke.status`. -/
inductive PyError where
  | typeError (msg : String)
  | attributeError (msg : String)
  | notImplementedError
deriving DecidableEq

/-- The identity of a Python class object: one of the four abstract bases
defined in the source, or a user-defined (concrete) subclass identified by
its name.  This models the `self.__class__ is Spoke` identity checks. -/
inductive ClassId where
  | SpokeC
  | StandaloneSpokeC
  | NormalSpokeC
  | PersonalizationSpokeC
  | userDefined (name : String)
deriving DecidableEq

/-- A Hub subclass, as referenced by `category`, `preForHub` and
`postForHub`.  Only its `__name__` is consulted by this module
(`collect_spokes` compares `obj.category.__name__`). -/
structure HubClass where
  name : String
deriving DecidableEq

/-- The class-level attributes of a `Spoke` (sub)class: `category`, `icon`
and `title` all default to `None` in the source (`Option.none` here),
together with the identity of the class object itself. -/
structure SpokeClass where
  id : ClassId
  category : Option HubClass := none
  icon : Option String := none
  title : Option String := none
deriving DecidableEq

/-- The additional class attributes of a `StandaloneSpoke` (sub)class:
`preForHub` and `postForHub` default to `None`, `priority` defaults
to `100`. -/
structure StandaloneSpokeClass extends SpokeClass where
  preForHub : Option HubClass := none
  postForHub : Option HubClass := none
  priority : Int := 100
deriving DecidableEq

/-- A constructed `Spoke` instance.  `Spoke.__init__` stores its four
arguments (`UIObject.__init__` is an external collaborator that stores
`data`; the other three are stored directly as attributes).  The four handles
are opaque to this module, hence type parameters.  The instance also knows
its class (`self.__class__`), which carries `title`, `category`, etc. -/
structure SpokeInst (δ σ π ι : Type) where
  cls : SpokeClass
  data : δ
  devicetree : σ
  payload : π
  instclass : ι
deriving DecidableEq

/-- A constructed `NormalSpoke` instance: a `Spoke` instance plus the
`selector` slot, set to `None` by `NormalSpoke.__init__` (the selector object
a hub may later assign is external, modelled opaquely as `Unit`). -/
structure NormalSpokeInst (δ σ π ι : Type) extends SpokeInst δ σ π ι where
  selector : Option Unit
deriving DecidableEq

/-- `Spoke.__init__`: fails with `TypeError` when called with the class
object being `Spoke` itself (`self.__class__ is Spoke`), otherwise stores
the four handles on the new instance. -/
def Spoke_init {δ σ π ι : Type} (cls : SpokeClass) (data : δ) (devicetree : σ)
    (payload : π) (instclass : ι) : Except PyError (SpokeInst δ σ π ι) :=
  if cls.id = ClassId.SpokeC then
    .error (.typeError "Spoke is an abstract class")
  else
    .ok ⟨cls, data, devicetree, payload, instclass⟩

/-- `StandaloneSpoke.__init__`: fails with `TypeError` when the class is
`StandaloneSpoke` itself; then fails with `AttributeError` when both
`preForHub` and `postForHub` are truthy (a Python class object is always
truthy, `None` is falsy, so `if self.preForHub and self.postForHub`
is `isSome && isSome`); otherwise delegates to `Spoke.__init__`. -/
def StandaloneSpoke_init {δ σ π ι : Type} (cls : StandaloneSpokeClass)
    (data : δ) (devicetree : σ) (payload : π) (instclass : ι) :
    Except PyError (SpokeInst δ σ π ι) :=
  if cls.id = ClassId.StandaloneSpokeC then
    .error (.typeError "StandaloneSpoke is an abstract class")
  else if cls.preForHub.isSome && cls.postForHub.isSome then
    .error (.attributeError
      "StandaloneSpoke instance may not have both preForHub and postForHub set")
  else
    Spoke_init cls.toSpokeClass data devicetree payload instclass

/-- `NormalSpoke.__init__`: fails with `TypeError` when the class is
`NormalSpoke` itself; otherwise delegates to `Spoke.__init__` and sets
`self.selector = None`. -/
def NormalSpoke_init {δ σ π ι : Type} (cls : SpokeClass) (data : δ)
    (devicetree : σ) (payload : π) (instclass : ι) :
    Except PyError (NormalSpokeInst δ σ π ι) :=
  if cls.id = ClassId.NormalSpokeC then
    .error (.typeError "NormalSpoke is an abstract class")
  else
    (Spoke_init cls data devicetree payload instclass).map
      (fun s => ⟨s, none⟩)

/-- `PersonalizationSpoke.__init__`: fails with `TypeError` when the class is
`PersonalizationSpoke` itself; otherwise delegates to `Spoke.__init__`. -/
def PersonalizationSpoke_init {δ σ π ι : Type} (cls : SpokeClass) (data : δ)
    (devicetree : σ) (payload : π) (instclass : ι) :
    Except PyError (SpokeInst δ σ π ι) :=
  if cls.id = ClassId.PersonalizationSpokeC then
    .error (.typeError "PersonalizationSpoke is an abstract class")
  else
    Spoke_init cls data devicetree payload instclass

/-- `Spoke.apply`: the base implementation raises `NotImplementedError`. -/
def Spoke_apply {δ σ π ι : Type} (_self : SpokeInst δ σ π ι) :
    Except PyError Unit :=
  .error .notImplementedError

/-- `Spoke.completed` (property): the base implementation returns `False`. -/
def Spoke_completed {δ σ π ι : Type} (_self : SpokeInst δ σ π ι) : Bool :=
  false

/-- `Spoke.status` (property): the base implementation raises
`NotImplementedError`. -/
def Spoke_status {δ σ π ι : Type} (_self : SpokeInst δ σ π ι) :
    Except PyError String :=
  .error .notImplementedError

/-- `NormalSpoke.ready` (property): the base implementation returns
`True`. -/
def NormalSpoke_ready {δ σ π ι : Type} (_self : NormalSpokeInst δ σ π ι) :
    Bool :=
  true

/-- Python's `str.replace(old, new)` for a single-character pattern: every
occurrence of the character is substituted.  The source's only use of
`replace` is `self.title.replace(" ", "")`, i.e. a one-character pattern. -/
def pyReplaceChar (cOld : Char) (new : List Char) : List Char → List Char
  | [] => []
  | c :: rest =>
    if c = cOld then new ++ pyReplaceChar cOld new rest
    else c :: pyReplaceChar cOld new rest

/-- The check-thread name derived in `NormalSpoke.on_back_clicked`:
`"Ana" + self.title.replace(" ", "") + "Check"`. -/
def threadNameOf (title : String) : String :=
  "Ana" ++ String.mk (pyReplaceChar ' ' [] title.data) ++ "Check"

/-- What a registered worker thread runs: the `check()` method of the spoke
(identified by its title), or some unrelated task present in the process-wide
registry. -/
inductive ThreadTarget where
  | checkOf (spokeTitle : String)
  | other (desc : String)
deriving DecidableEq

/-- A worker thread handle as seen through the registry: its cooperative
`kill` flag and the target it runs. -/
structure CheckThread where
  kill : Bool
  target : ThreadTarget
deriving DecidableEq

/-- Modelled from the spec: the worker registry (`threadMgr`, an external
collaborator) is "a process-wide lookup from a string name to a
running/joinable worker handle, supporting: register-by-name, lookup-by-name
(returns none if absent), request-kill, join".  It is modelled as an
association list from names to live worker handles. -/
abbrev Registry := List (String × CheckThread)

/-- Modelled from the spec: `threadMgr.get(name)`, lookup-by-name, returning
none if absent (the first — with well-keyed registries the only — entry
under the name). -/
def tmGet : Registry → String → Option CheckThread
  | [], _ => none
  | p :: rest, n => if p.1 = n then some p.2 else tmGet rest n

/-- Modelled from the spec: `thr.kill = True` on the thread found under
`n` — request-kill sets the cooperative kill flag of that worker. -/
def tmSetKill : Registry → String → Registry
  | [], _ => []
  | p :: rest, n =>
    if p.1 = n then (p.1, ⟨true, p.2.target⟩) :: rest
    else p :: tmSetKill rest n

/-- Modelled from the spec: `thr.join()` blocks until the worker found under
`n` exits; once it has exited it is no longer a live registered worker, so
its entry leaves the registry. -/
def tmJoin : Registry → String → Registry
  | [], _ => []
  | p :: rest, n => if p.1 = n then rest else p :: tmJoin rest n

/-- Modelled from the spec: `threadMgr.add(Thread(name=n, target=t))` —
register-by-name a fresh (not yet killed) worker running `t`. -/
def tmAdd (r : Registry) (n : String) (t : ThreadTarget) : Registry :=
  r ++ [(n, ⟨false, t⟩)]

/-- The externally visible events of `NormalSpoke.on_back_clicked`, in the
order they happen: hide the window, quit the Gtk main loop, then the
worker-registry actions. -/
inductive BackEvent where
  | windowHidden
  | mainQuit
  | killSet (threadName : String)
  | joined (threadName : String)
  | started (threadName : String)
deriving DecidableEq

/-- The thread-handling core of `NormalSpoke.on_back_clicked`, after the
window is hidden: derive the thread name from the title, look the name up;
if a thread is registered, set its kill flag and join it; in all cases
register and start a fresh thread running `self.check`.  Returns the new
registry state and the trace of registry events in order. -/
def on_back_core (title : String) (r : Registry) :
    Registry × List BackEvent :=
  let n := threadNameOf title
  match tmGet r n with
  | some _ =>
    (tmAdd (tmJoin (tmSetKill r n) n) n (.checkOf title),
     [.killSet n, .joined n, .started n])
  | none =>
    (tmAdd r n (.checkOf title), [.started n])

/-- `NormalSpoke.on_back_clicked`: hides the window and quits the main loop,
then derives the thread name from `self.title`.  When `title` is `None` (the
inherited default), `None.replace(" ", "")` raises `AttributeError` and the
registry is left untouched; otherwise the thread-handling core runs.  The
result pairs the final registry with either the error or the event trace. -/
def on_back_clicked (title : Option String) (r : Registry) :
    Registry × Except PyError (List BackEvent) :=
  match title with
  | none =>
    (r, .error (.attributeError "NoneType object has no attribute replace"))
  | some t =>
    let (r2, tr) := on_back_core t r
    (r2, .ok ([.windowHidden, .mainQuit] ++ tr))

/-- Events recorded while exercising `StandaloneSpoke._on_continue_clicked`
with recording doubles for `apply` and the callback. -/
inductive ContinueEvent where
  | applyCalled
  | callbackCalled
deriving DecidableEq

/-- `StandaloneSpoke._on_continue_clicked(cb)`: runs `self.apply()` and then
`cb()`.  Both are modelled as state transformers; the handler is their
sequential composition, apply first. -/
def on_continue_clicked {α : Type} (applyImpl : α → α) (cb : α → α)
    (s : α) : α :=
  cb (applyImpl s)

/-- A recording double for `apply()`: appends `applyCalled` to the trace. -/
def applyRecorder (t : List ContinueEvent) : List ContinueEvent :=
  t ++ [.applyCalled]

/-- A recording double for the continue callback: appends `callbackCalled`
to the trace. -/
def callbackRecorder (t : List ContinueEvent) : List ContinueEvent :=
  t ++ [.callbackCalled]

/-- A member of a scanned module namespace, as seen by the discovery
predicate of `collect_spokes`: `category = none` models an object without a
`category` attribute (`hasattr` fails), `some none` models
`category = None`, and `some (some h)` a category set to the hub class
`h`. -/
structure ModuleMember where
  name : String
  category : Option (Option HubClass)
deriving DecidableEq

/-- The predicate passed by `collect_spokes` to `collect`:
`hasattr(obj, "category") and obj.category != None and
obj.category.__name__ == category`, with Python's left-to-right
short-circuiting. -/
def spokeMatches (category : String) (obj : ModuleMember) : Bool :=
  match obj.category with
  | none => false
  | some none => false
  | some (some h) => h.name = category

/-- Modelled from the spec: `collect` (an external collaborator imported from
`pyanaconda.ui.gui`) scans "all known screen types" and returns those
matching the predicate; `collect_spokes category` applies it to the predicate
above.  The scanned namespace is passed in as the list `known`. -/
def collect_spokes (known : List ModuleMember) (category : String) :
    List ModuleMember :=
  List.filter (spokeMatches category) known

/-- The ordering on standalone spokes used to sequence pre/post actions:
"The lower a value, the earlier it will be run." -/
def prioLE (a b : StandaloneSpokeClass) : Prop :=
  a.priority ≤ b.priority

instance : DecidableRel prioLE := fun a b => Int.decLe a.priority b.priority

instance : IsTotal StandaloneSpokeClass prioLE :=
  ⟨fun a b => Int.le_total a.priority b.priority⟩

instance : IsTrans StandaloneSpokeClass prioLE :=
  ⟨fun _ _ _ hab hbc => Int.le_trans hab hbc⟩

/-- Is `a` declared as a pre action for hub `h` (`preForHub` references the
hub class by identity)? -/
def isPreFor (h : HubClass) (a : StandaloneSpokeClass) : Bool :=
  a.preForHub = some h

/-- Is `a` declared as a post action for hub `h`? -/
def isPostFor (h : HubClass) (a : StandaloneSpokeClass) : Bool :=
  a.postForHub = some h

/-- One step of the installer flow: either showing a hub, or running a
standalone spoke that is a pre or post action of some hub. -/
inductive FlowItem where
  | hubShown (h : HubClass)
  | actionRun (a : StandaloneSpokeClass)
deriving DecidableEq

/-- Modelled from the spec: the slice of the flow around one hub — that
hub's pre actions sorted by ascending priority, then the hub itself, then
its post actions sorted by ascending priority. -/
def hubSegment (actions : List StandaloneSpokeClass) (h : HubClass) :
    List FlowItem :=
  (List.insertionSort prioLE (actions.filter (isPreFor h))).map .actionRun
    ++ [FlowItem.hubShown h]
    ++ (List.insertionSort prioLE (actions.filter (isPostFor h))).map
        .actionRun

/-- Modelled from the spec: the flow sequencer (external to this module; the
source only declares the `preForHub`/`postForHub`/`priority` attributes it
consumes).  The hubs are visited in order, each with its pre actions before
it and its post actions after it — so "all post actions will be run for one
hub before any pre actions for the next", and within each group "the lower a
value, the earlier it will be run". -/
def sequenceFlow (hubs : List HubClass)
    (actions : List StandaloneSpokeClass) : List FlowItem :=
  (hubs.map (hubSegment actions)).flatten

/-- Modelled from the spec's words, for comparison with `threadNameOf`: the
worker name is the "screen title with whitespace removed, prefixed" (by
`"Ana"`) and suffixed (by `"Check"`) — every whitespace character of the
title removed. -/
def specWorkerName (title : String) : String :=
  "Ana" ++ String.mk (title.data.filter (fun c => !c.isWhitespace)) ++ "Check"

/-- Does a registry entry carry the name `n`? -/
def namedP (n : String) (p : String × CheckThread) : Bool :=
  p.1 = n

/-- How many workers are registered under the name `n`. -/
def countNamed (r : Registry) (n : String) : Nat :=
  r.countP (namedP n)

/-- Claim C8: for every `Spoke` instance whose concrete subclass does not
override them (i.e. running the base implementations), calling `apply()`
fails with `NotImplementedError` and querying `status` fails with
`NotImplementedError`. -/
theorem spoke_apply_status_not_implemented :
    ∀ (δ σ π ι : Type) (inst : SpokeInst δ σ π ι),
      Spoke_apply inst = .error .notImplementedError ∧
        Spoke_status inst = .error .notImplementedError := by
  intro δ σ π ι inst
  exact ⟨rfl, rfl⟩

/-- Claim C7: for every minimal concrete `NormalSpoke` subclass that
overrides nothing beyond what construction requires, construction succeeds
and the instance's default `completed` is `false` while its default `ready`
is `true`. -/
theorem normal_spoke_default_completed_ready :
    ∀ (δ σ π ι : Type) (cls : SpokeClass) (nm : String) (d : δ) (dt : σ)
      (p : π) (i : ι), cls.id = ClassId.userDefined nm →
      ∃ inst, NormalSpoke_init cls d dt p i = .ok inst ∧
        Spoke_completed inst.toSpokeInst = false ∧
        NormalSpoke_ready inst = true := by
  intro δ σ π ι cls nm d dt p i h
  refine ⟨⟨⟨cls, d, dt, p, i⟩, none⟩, ?_, rfl, rfl⟩
  simp [NormalSpoke_init, Spoke_init, h, Except.map]

/-- Witness for C7: a concrete minimal `NormalSpoke` subclass titled
`"Foo"`, constructed with concrete handles, is built successfully and has
`completed = false`, `ready = true`. -/
theorem normal_spoke_default_completed_ready_witness :
    ∃ inst,
      NormalSpoke_init
          ⟨ClassId.userDefined "MySpoke", none, none, some "Foo"⟩
          (0 : Nat) (1 : Nat) (2 : Nat) (3 : Nat) = .ok inst ∧
        Spoke_completed inst.toSpokeInst = false ∧
        NormalSpoke_ready inst = true :=
  normal_spoke_default_completed_ready Nat Nat Nat Nat
    ⟨ClassId.userDefined "MySpoke", none, none, some "Foo"⟩ "MySpoke"
    0 1 2 3 rfl

/-- Claim C5: `StandaloneSpoke._on_continue_clicked` runs `apply()` strictly
before the continue callback: with recording doubles the trace always ends
`applyCalled` then `callbackCalled`, and for arbitrary `apply`/callback
state transformers the handler is exactly the composition
"callback after apply". -/
theorem continue_applies_before_callback :
    (∀ t : List ContinueEvent,
        on_continue_clicked applyRecorder callbackRecorder t =
          t ++ [ContinueEvent.applyCalled, ContinueEvent.callbackCalled]) ∧
      ∀ (α : Type) (applyImpl cb : α → α) (s : α),
        on_continue_clicked applyImpl cb s = cb (applyImpl s) := by
  constructor
  · intro t
    simp [on_continue_clicked, applyRecorder, callbackRecorder]
  · intro α applyImpl cb s
    rfl

/-- Claim C10 (implicit): for every `NormalSpoke` whose title is the
inherited default `None`, `on_back_clicked` fails with `AttributeError`
while deriving the worker name — before any task is killed, joined or
started — and the worker registry is returned unchanged. -/
theorem back_clicked_none_title :
    ∀ r : Registry,
      on_back_clicked none r =
        (r, .error
          (.attributeError "NoneType object has no attribute replace")) := by
  intro r
  rfl

/-- Claim C3: constructing a concrete `StandaloneSpoke` subclass fails with
the `AttributeError` (the spec's `InvalidConfigurationError`) exactly when
both `preForHub` and `postForHub` are non-`None`; when at least one of them
is `None` (exactly one set, or neither), construction succeeds. -/
theorem standalone_pre_post_exclusivity :
    ∀ (δ σ π ι : Type) (cls : StandaloneSpokeClass) (nm : String) (d : δ)
      (dt : σ) (p : π) (i : ι), cls.id = ClassId.userDefined nm →
      (cls.preForHub.isSome ∧ cls.postForHub.isSome →
          StandaloneSpoke_init cls d dt p i =
            .error (.attributeError
              "StandaloneSpoke instance may not have both preForHub and postForHub set")) ∧
        ((cls.preForHub = none ∨ cls.postForHub = none) →
          ∃ inst, StandaloneSpoke_init cls d dt p i = .ok inst) := by
  intro δ σ π ι cls nm d dt p i h
  obtain ⟨⟨cid, cat, icon, title⟩, pre, post, prio⟩ := cls
  simp only at h
  subst h
  constructor
  · intro hboth
    simp [StandaloneSpoke_init, hboth.1, hboth.2]
  · intro hone
    refine ⟨⟨⟨ClassId.userDefined nm, cat, icon, title⟩, d, dt, p, i⟩, ?_⟩
    rcases hone with h1 | h1 <;> simp only at h1 <;> subst h1 <;>
      simp [StandaloneSpoke_init, Spoke_init]

/-- Witness for C3: with both hubs set construction of a concrete subclass
fails with the `AttributeError`; with only `postForHub` set it succeeds. -/
theorem standalone_pre_post_exclusivity_witness :
    (StandaloneSpoke_init
        ⟨⟨ClassId.userDefined "BothSpoke", none, none, none⟩,
          some ⟨"Hub1"⟩, some ⟨"Hub2"⟩, 100⟩
        (0 : Nat) (1 : Nat) (2 : Nat) (3 : Nat) =
      .error (.attributeError
        "StandaloneSpoke instance may not have both preForHub and postForHub set")) ∧
      ∃ inst,
        StandaloneSpoke_init
            ⟨⟨ClassId.userDefined "PostSpoke", none, none, none⟩,
              none, some ⟨"Hub2"⟩, 0⟩
            (0 : Nat) (1 : Nat) (2 : Nat) (3 : Nat) = .ok inst :=
  ⟨(standalone_pre_post_exclusivity Nat Nat Nat Nat
      ⟨⟨ClassId.userDefined "BothSpoke", none, none, none⟩,
        some ⟨"Hub1"⟩, some ⟨"Hub2"⟩, 100⟩ "BothSpoke" 0 1 2 3 rfl).1
      ⟨rfl, rfl⟩,
    (standalone_pre_post_exclusivity Nat Nat Nat Nat
      ⟨⟨ClassId.userDefined "PostSpoke", none, none, none⟩,
        none, some ⟨"Hub2"⟩, 0⟩ "PostSpoke" 0 1 2 3 rfl).2
      (Or.inl rfl)⟩

/-- Claim C2 counterexample: a proper concrete `StandaloneSpoke` subclass
that sets both `preForHub` and `postForHub` does not construct successfully
(construction raises the both-hubs `AttributeError`), refuting
"constructing any proper concrete subclass succeeds" as stated. -/
theorem abstract_bases_counterexample :
    ¬ ∃ inst,
        StandaloneSpoke_init
            ⟨⟨ClassId.userDefined "BothSpoke", none, none, none⟩,
              some ⟨"Hub1"⟩, some ⟨"Hub2"⟩, 100⟩
            (0 : Nat) (1 : Nat) (2 : Nat) (3 : Nat) = .ok inst := by
  rintro ⟨inst, h⟩
  simp [StandaloneSpoke_init] at h

/-- Claim C2 (amended): constructing any of the four abstract bases directly
fails with the `TypeError` instantiation guard (the spec's
`AbstractInstantiationError`), and constructing a proper concrete subclass
succeeds — except that a concrete `StandaloneSpoke` subclass additionally
requires not setting both `preForHub` and `postForHub` (else construction
fails per the pre/post exclusivity rule). -/
theorem abstract_bases_amended :
    (∀ (δ σ π ι : Type) (cls : SpokeClass) (d : δ) (dt : σ) (p : π) (i : ι),
        cls.id = ClassId.SpokeC →
          Spoke_init cls d dt p i =
            .error (.typeError "Spoke is an abstract class")) ∧
      (∀ (δ σ π ι : Type) (cls : StandaloneSpokeClass) (d : δ) (dt : σ)
          (p : π) (i : ι), cls.id = ClassId.StandaloneSpokeC →
          StandaloneSpoke_init cls d dt p i =
            .error (.typeError "StandaloneSpoke is an abstract class")) ∧
      (∀ (δ σ π ι : Type) (cls : SpokeClass) (d : δ) (dt : σ) (p : π) (i : ι),
        cls.id = ClassId.NormalSpokeC →
          NormalSpoke_init cls d dt p i =
            .error (.typeError "NormalSpoke is an abstract class")) ∧
      (∀ (δ σ π ι : Type) (cls : SpokeClass) (d : δ) (dt : σ) (p : π) (i : ι),
        cls.id = ClassId.PersonalizationSpokeC →
          PersonalizationSpoke_init cls d dt p i =
            .error (.typeError "PersonalizationSpoke is an abstract class")) ∧
      (∀ (δ σ π ι : Type) (cls : SpokeClass) (nm : String) (d : δ) (dt : σ)
          (p : π) (i : ι), cls.id = ClassId.userDefined nm →
          ∃ inst, Spoke_init cls d dt p i = .ok inst) ∧
      (∀ (δ σ π ι : Type) (cls : StandaloneSpokeClass) (nm : String) (d : δ)
          (dt : σ) (p : π) (i : ι), cls.id = ClassId.userDefined nm →
          (cls.preForHub = none ∨ cls.postForHub = none) →
          ∃ inst, StandaloneSpoke_init cls d dt p i = .ok inst) ∧
      (∀ (δ σ π ι : Type) (cls : SpokeClass) (nm : String) (d : δ) (dt : σ)
          (p : π) (i : ι), cls.id = ClassId.userDefined nm →
          ∃ inst, NormalSpoke_init cls d dt p i = .ok inst) ∧
      (∀ (δ σ π ι : Type) (cls : SpokeClass) (nm : String) (d : δ) (dt : σ)
          (p : π) (i : ι), cls.id = ClassId.userDefined nm →
          ∃ inst, PersonalizationSpoke_init cls d dt p i = .ok inst) := by
  refine ⟨?_, ?_, ?_, ?_, ?_, ?_, ?_, ?_⟩
  · intro δ σ π ι cls d dt p i h
    simp [Spoke_init, h]
  · intro δ σ π ι cls d dt p i h
    simp [StandaloneSpoke_init, h]
  · intro δ σ π ι cls d dt p i h
    simp [NormalSpoke_init, h]
  · intro δ σ π ι cls d dt p i h
    simp [PersonalizationSpoke_init, h]
  · intro δ σ π ι cls nm d dt p i h
    exact ⟨⟨cls, d, dt, p, i⟩, by simp [Spoke_init, h]⟩
  · intro δ σ π ι cls nm d dt p i h hone
    obtain ⟨⟨cid, cat, icon, title⟩, pre, post, prio⟩ := cls
    simp only at h
    subst h
    refine ⟨⟨⟨ClassId.userDefined nm, cat, icon, title⟩, d, dt, p, i⟩, ?_⟩
    rcases hone with h1 | h1 <;> simp only at h1 <;> subst h1 <;>
      simp [StandaloneSpoke_init, Spoke_init]
  · intro δ σ π ι cls nm d dt p i h
    exact ⟨⟨⟨cls, d, dt, p, i⟩, none⟩,
      by simp [NormalSpoke_init, Spoke_init, h, Except.map]⟩
  · intro δ σ π ι cls nm d dt p i h
    exact ⟨⟨cls, d, dt, p, i⟩,
      by simp [PersonalizationSpoke_init, Spoke_init, h]⟩

/-- Witness for the amended C2: the abstract base `Spoke` itself fails with
the `TypeError`, and a concrete `Spoke` subclass constructs successfully. -/
theorem abstract_bases_amended_witness :
    (Spoke_init ⟨ClassId.SpokeC, none, none, none⟩
        (0 : Nat) (1 : Nat) (2 : Nat) (3 : Nat) =
      .error (.typeError "Spoke is an abstract class")) ∧
      ∃ inst,
        Spoke_init ⟨ClassId.userDefined "WelcomeSpoke", none, none, none⟩
          (0 : Nat) (1 : Nat) (2 : Nat) (3 : Nat) = .ok inst :=
  ⟨abstract_bases_amended.1 Nat Nat Nat Nat
      ⟨ClassId.SpokeC, none, none, none⟩ 0 1 2 3 rfl,
    abstract_bases_amended.2.2.2.2.1 Nat Nat Nat Nat
      ⟨ClassId.userDefined "WelcomeSpoke", none, none, none⟩ "WelcomeSpoke"
      0 1 2 3 rfl⟩

/-- Removing a single character by `replace` is filtering it out. -/
theorem pyReplaceChar_eq_filter (cOld : Char) (l : List Char) :
    pyReplaceChar cOld [] l = l.filter (fun c => !(c == cOld)) := by
  induction l with
  | nil => rfl
  | cons c rest ih =>
    by_cases h : c = cOld <;>
      simp [pyReplaceChar, List.filter_cons, h, ih]

/-- Claim C6 counterexample: for the title `"Foo\tBar"` (which contains a
tab, a whitespace character that is not a space) the derived thread name
keeps the tab, so it differs from the spec's "title with whitespace
removed" between the fixed prefix and suffix. -/
theorem thread_name_counterexample :
    threadNameOf "Foo\tBar" ≠ specWorkerName "Foo\tBar" := by
  decide

/-- Claim C6 (amended): the worker name is derived from the screen's title
by removing every space character (U+0020, not all whitespace) and wrapping
the result in the fixed prefix `"Ana"` and suffix `"Check"`; in particular a
screen titled `"Foo"` gets the worker name `"AnaFooCheck"`. -/
theorem thread_name_amended :
    (∀ title : String,
        threadNameOf title =
          "Ana" ++ String.mk (title.data.filter (fun c => !(c == ' ')))
            ++ "Check") ∧
      threadNameOf "Foo" = "AnaFooCheck" ∧
      threadNameOf "Foo Bar" = "AnaFooBarCheck" := by
  refine ⟨?_, by decide, by decide⟩
  intro title
  simp only [threadNameOf, pyReplaceChar_eq_filter]

/-- The discovery predicate of `collect_spokes` accepts exactly the members
whose `category` attribute exists, is not `None`, and names the requested
category. -/
theorem spokeMatches_iff (cat : String) (c : ModuleMember) :
    spokeMatches cat c = true ↔
      ∃ h, c.category = some (some h) ∧ h.name = cat := by
  obtain ⟨nm, cato⟩ := c
  match cato with
  | none => simp [spokeMatches]
  | some none => simp [spokeMatches]
  | some (some hb) => simp [spokeMatches]

/-- Claim C4: `collect_spokes` returns exactly the screen types that declare
a `category` attribute, have it set to something other than `None`, and
whose category's `__name__` equals the requested identifier; all others are
excluded, and a category matched by no screen yields an empty result. -/
theorem collect_spokes_by_category (known : List ModuleMember)
    (cat : String) :
    (∀ c, c ∈ collect_spokes known cat ↔
        c ∈ known ∧ ∃ h, c.category = some (some h) ∧ h.name = cat) ∧
      ((∀ c ∈ known, spokeMatches cat c = false) →
        collect_spokes known cat = []) := by
  constructor
  · intro c
    rw [collect_spokes, List.mem_filter, spokeMatches_iff]
  · intro hnone
    rw [collect_spokes, List.filter_eq_nil_iff]
    intro c hc
    simp [hnone c hc]

/-- Witness for C4, the spec's three-screen scenario: with screen types in
categories HubA and HubB plus one with `category = None` and one without the
attribute, requesting HubA finds the HubA screen and requesting an unrelated
category finds nothing. -/
theorem collect_spokes_by_category_witness :
    (⟨"SpokeA", some (some ⟨"HubA"⟩)⟩ : ModuleMember) ∈
        collect_spokes
          [⟨"SpokeA", some (some ⟨"HubA"⟩)⟩, ⟨"SpokeB", some (some ⟨"HubB"⟩)⟩,
            ⟨"SpokeU", some none⟩, ⟨"NotASpoke", none⟩] "HubA" ∧
      collect_spokes
          [⟨"SpokeA", some (some ⟨"HubA"⟩)⟩, ⟨"SpokeB", some (some ⟨"HubB"⟩)⟩,
            ⟨"SpokeU", some none⟩, ⟨"NotASpoke", none⟩] "HubC" = [] :=
  ⟨((collect_spokes_by_category
        [⟨"SpokeA", some (some ⟨"HubA"⟩)⟩, ⟨"SpokeB", some (some ⟨"HubB"⟩)⟩,
          ⟨"SpokeU", some none⟩, ⟨"NotASpoke", none⟩] "HubA").1 _).mpr
      ⟨by decide, ⟨⟨"HubA"⟩, rfl, rfl⟩⟩,
    (collect_spokes_by_category
        [⟨"SpokeA", some (some ⟨"HubA"⟩)⟩, ⟨"SpokeB", some (some ⟨"HubB"⟩)⟩,
          ⟨"SpokeU", some none⟩, ⟨"NotASpoke", none⟩] "HubC").2
      (by decide)⟩

/-- Setting the kill flag of the worker named `n` renames nothing, so the
count of workers under any name is unchanged. -/
theorem countNamed_tmSetKill (r : Registry) (n m : String) :
    countNamed (tmSetKill r n) m = countNamed r m := by
  induction r with
  | nil => rfl
  | cons p rest ih =>
    by_cases h : p.1 = n
    · simp [tmSetKill, h, countNamed, List.countP_cons, namedP]
    · have hrec := ih
      simp [tmSetKill, h, countNamed, List.countP_cons, namedP] at hrec ⊢
      omega

/-- Setting the kill flag of the worker named `n` turns the handle found
under `n` into the same handle with `kill = true`. -/
theorem tmGet_tmSetKill (r : Registry) (n : String) :
    tmGet (tmSetKill r n) n =
      (tmGet r n).map (fun t => ⟨true, t.target⟩) := by
  induction r with
  | nil => rfl
  | cons p rest ih =>
    by_cases h : p.1 = n
    · simp [tmSetKill, tmGet, h]
    · simp [tmSetKill, tmGet, h, ih]

/-- If no worker is found under `n`, none is registered under `n`. -/
theorem countNamed_of_tmGet_none (r : Registry) (n : String)
    (h : tmGet r n = none) : countNamed r n = 0 := by
  induction r with
  | nil => rfl
  | cons p rest ih =>
    by_cases hp : p.1 = n
    · simp [tmGet, hp] at h
    · rw [tmGet, if_neg hp] at h
      have hrec := ih h
      have hfalse : namedP n p = false := by simp [namedP, hp]
      simp only [countNamed, List.countP_cons, hfalse] at hrec ⊢
      simpa using hrec

/-- Joining the worker found under `n` removes exactly one worker under
`n` from the registry. -/
theorem countNamed_tmJoin (r : Registry) (n : String) (t : CheckThread)
    (h : tmGet r n = some t) :
    countNamed (tmJoin r n) n + 1 = countNamed r n := by
  induction r with
  | nil => simp [tmGet] at h
  | cons p rest ih =>
    by_cases hp : p.1 = n
    · simp [tmJoin, hp, countNamed, List.countP_cons, namedP]
    · rw [tmGet, if_neg hp] at h
      have hrec := ih h
      simp [tmJoin, hp, countNamed, List.countP_cons, namedP] at hrec ⊢
      omega

/-- Registering a fresh worker under `n` raises the count under `n` by
one. -/
theorem countNamed_tmAdd (r : Registry) (n : String) (t : ThreadTarget) :
    countNamed (tmAdd r n t) n = countNamed r n + 1 := by
  simp [countNamed, tmAdd, List.countP_append, List.countP_cons, namedP]

/-- Registering a fresh worker under a name with no current worker makes it
the one found under that name. -/
theorem tmGet_tmAdd_of_zero (r : Registry) (n : String) (t : ThreadTarget)
    (h : countNamed r n = 0) : tmGet (tmAdd r n t) n = some ⟨false, t⟩ := by
  induction r with
  | nil => simp [tmAdd, tmGet]
  | cons p rest ih =>
    by_cases hp : p.1 = n
    · simp [countNamed, List.countP_cons, namedP, hp] at h
    · rw [show tmAdd (p :: rest) n t = p :: tmAdd rest n t from rfl,
        tmGet, if_neg hp]
      refine ih ?_
      have hfalse : namedP n p = false := by simp [namedP, hp]
      simp only [countNamed, List.countP_cons, hfalse, Bool.false_eq_true,
        if_false, Nat.add_zero] at h
      exact h

/-- Claim C1: `on_back_clicked` on a titled `NormalSpoke`, starting from a
registry with at most one worker under the spoke's derived name (the
registry keys workers by name): afterwards exactly one worker — a fresh,
not-killed one running `check()` — is registered under that name; if a
worker was in flight its kill flag is set and it is joined (observed in that
order in the event trace) before the new worker is started; with no worker
in flight the new worker is simply started. -/
theorem back_clicked_single_flight (title : String) (r : Registry)
    (hU : countNamed r (threadNameOf title) ≤ 1) :
    countNamed (on_back_clicked (some title) r).1 (threadNameOf title) = 1 ∧
      tmGet (on_back_clicked (some title) r).1 (threadNameOf title) =
        some ⟨false, .checkOf title⟩ ∧
      (∀ thr, tmGet r (threadNameOf title) = some thr →
          (on_back_clicked (some title) r).2 =
            .ok [.windowHidden, .mainQuit, .killSet (threadNameOf title),
              .joined (threadNameOf title), .started (threadNameOf title)] ∧
            tmGet (tmSetKill r (threadNameOf title)) (threadNameOf title) =
              some ⟨true, thr.target⟩) ∧
      (tmGet r (threadNameOf title) = none →
        (on_back_clicked (some title) r).2 =
          .ok [.windowHidden, .mainQuit, .started (threadNameOf title)]) := by
  cases hg : tmGet r (threadNameOf title) with
  | none =>
    have hz : countNamed r (threadNameOf title) = 0 :=
      countNamed_of_tmGet_none r _ hg
    refine ⟨?_, ?_, ?_, ?_⟩
    · simp [on_back_clicked, on_back_core, hg, countNamed_tmAdd, hz]
    · simp [on_back_clicked, on_back_core, hg, tmGet_tmAdd_of_zero r _ _ hz]
    · intro thr habs
      exact absurd habs (by simp)
    · intro _
      simp [on_back_clicked, on_back_core, hg]
  | some thr =>
    have hk : tmGet (tmSetKill r (threadNameOf title)) (threadNameOf title) =
        some ⟨true, thr.target⟩ := by
      rw [tmGet_tmSetKill, hg]
      rfl
    have hjoin :
        countNamed (tmJoin (tmSetKill r (threadNameOf title))
            (threadNameOf title)) (threadNameOf title) + 1 =
          countNamed (tmSetKill r (threadNameOf title))
            (threadNameOf title) :=
      countNamed_tmJoin _ _ _ hk
    have hsk : countNamed (tmSetKill r (threadNameOf title))
        (threadNameOf title) = countNamed r (threadNameOf title) :=
      countNamed_tmSetKill r _ _
    have hpos : 1 ≤ countNamed r (threadNameOf title) := by omega
    have hz : countNamed (tmJoin (tmSetKill r (threadNameOf title))
        (threadNameOf title)) (threadNameOf title) = 0 := by omega
    refine ⟨?_, ?_, ?_, ?_⟩
    · simp [on_back_clicked, on_back_core, hg, countNamed_tmAdd, hz]
    · simp [on_back_clicked, on_back_core, hg, tmGet_tmAdd_of_zero _ _ _ hz]
    · intro thr2 h2
      have h3 : thr = thr2 := by injection h2
      subst h3
      exact ⟨by simp [on_back_clicked, on_back_core, hg], hk⟩
    · intro habs
      exact absurd habs (by simp)

/-- Witness for C1: a spoke titled `"Foo"` with an in-flight worker
registered under `"AnaFooCheck"`: after `on_back_clicked` exactly one worker
is registered under the name and the trace shows kill, join, then start. -/
theorem back_clicked_single_flight_witness :
    countNamed
        (on_back_clicked (some "Foo")
          [("AnaFooCheck", ⟨false, .other "oldCheck"⟩)]).1
        (threadNameOf "Foo") = 1 ∧
      (on_back_clicked (some "Foo")
          [("AnaFooCheck", ⟨false, .other "oldCheck"⟩)]).2 =
        .ok [.windowHidden, .mainQuit, .killSet (threadNameOf "Foo"),
          .joined (threadNameOf "Foo"), .started (threadNameOf "Foo")] :=
  ⟨(back_clicked_single_flight "Foo"
      [("AnaFooCheck", ⟨false, .other "oldCheck"⟩)] (by decide)).1,
    ((back_clicked_single_flight "Foo"
        [("AnaFooCheck", ⟨false, .other "oldCheck"⟩)] (by decide)).2.2.1
      ⟨false, .other "oldCheck"⟩ (by decide)).1⟩

/-- Claim C9: in the sequenced flow, all post-hub actions of a hub form a
contiguous block that is immediately followed by the block of pre-hub
actions of the next hub — so every post action of a hub runs to completion
before any pre action of the next hub begins; each block is sorted by
ascending `priority` and is a permutation of exactly the declared actions of
that group, regardless of the registration order in `actions`. -/
theorem flow_posts_before_next_pres (hs₁ hs₂ : List HubClass)
    (h₁ h₂ : HubClass) (hubs : List HubClass)
    (actions : List StandaloneSpokeClass)
    (hh : hubs = hs₁ ++ h₁ :: h₂ :: hs₂) :
    (∃ A C,
        sequenceFlow hubs actions =
          A ++ (List.insertionSort prioLE
              (actions.filter (isPostFor h₁))).map FlowItem.actionRun
            ++ (List.insertionSort prioLE
              (actions.filter (isPreFor h₂))).map FlowItem.actionRun
            ++ C) ∧
      List.Sorted prioLE
        (List.insertionSort prioLE (actions.filter (isPostFor h₁))) ∧
      List.Sorted prioLE
        (List.insertionSort prioLE (actions.filter (isPreFor h₂))) ∧
      (List.insertionSort prioLE (actions.filter (isPostFor h₁))).Perm
        (actions.filter (isPostFor h₁)) ∧
      (List.insertionSort prioLE (actions.filter (isPreFor h₂))).Perm
        (actions.filter (isPreFor h₂)) := by
  subst hh
  refine ⟨⟨(hs₁.map (hubSegment actions)).flatten
        ++ (List.insertionSort prioLE
          (actions.filter (isPreFor h₁))).map FlowItem.actionRun
        ++ [FlowItem.hubShown h₁],
      FlowItem.hubShown h₂ ::
        ((List.insertionSort prioLE
            (actions.filter (isPostFor h₂))).map FlowItem.actionRun
          ++ (hs₂.map (hubSegment actions)).flatten), ?_⟩,
    List.sorted_insertionSort prioLE _, List.sorted_insertionSort prioLE _,
    List.perm_insertionSort prioLE _, List.perm_insertionSort prioLE _⟩
  simp [sequenceFlow, hubSegment, List.map_append, List.flatten_append,
    List.append_assoc]

/-- Witness for C9: one post action for Hub1 and one pre action for Hub2,
registered pre-action first; the flow still runs the Hub1 post action
before the Hub2 pre action, each group sorted and exact. -/
theorem flow_posts_before_next_pres_witness :
    (∃ A C,
        sequenceFlow [⟨"Hub1"⟩, ⟨"Hub2"⟩]
            [⟨⟨ClassId.userDefined "Pre2", none, none, none⟩,
                some ⟨"Hub2"⟩, none, 0⟩,
              ⟨⟨ClassId.userDefined "Post1", none, none, none⟩,
                none, some ⟨"Hub1"⟩, 0⟩] =
          A ++ (List.insertionSort prioLE
              (List.filter (isPostFor ⟨"Hub1"⟩)
                [⟨⟨ClassId.userDefined "Pre2", none, none, none⟩,
                    some ⟨"Hub2"⟩, none, 0⟩,
                  ⟨⟨ClassId.userDefined "Post1", none, none, none⟩,
                    none, some ⟨"Hub1"⟩, 0⟩])).map FlowItem.actionRun
            ++ (List.insertionSort prioLE
              (List.filter (isPreFor ⟨"Hub2"⟩)
                [⟨⟨ClassId.userDefined "Pre2", none, none, none⟩,
                    some ⟨"Hub2"⟩, none, 0⟩,
                  ⟨⟨ClassId.userDefined "Post1", none, none, none⟩,
                    none, some ⟨"Hub1"⟩, 0⟩])).map FlowItem.actionRun
            ++ C) ∧
      List.Sorted prioLE
        (List.insertionSort prioLE
          (List.filter (isPostFor ⟨"Hub1"⟩)
            [⟨⟨ClassId.userDefined "Pre2", none, none, none⟩,
                some ⟨"Hub2"⟩, none, 0⟩,
              ⟨⟨ClassId.userDefined "Post1", none, none, none⟩,
                none, some ⟨"Hub1"⟩, 0⟩])) ∧
      List.Sorted prioLE
        (List.insertionSort prioLE
          (List.filter (isPreFor ⟨"Hub2"⟩)
            [⟨⟨ClassId.userDefined "Pre2", none, none, none⟩,
                some ⟨"Hub2"⟩, none, 0⟩,
              ⟨⟨ClassId.userDefined "Post1", none, none, none⟩,
                none, some ⟨"Hub1"⟩, 0⟩])) ∧
      (List.insertionSort prioLE
          (List.filter (isPostFor ⟨"Hub1"⟩)
            [⟨⟨ClassId.userDefined "Pre2", none, none, none⟩,
                some ⟨"Hub2"⟩, none, 0⟩,
              ⟨⟨ClassId.userDefined "Post1", none, none, none⟩,
                none, some ⟨"Hub1"⟩, 0⟩])).Perm
        (List.filter (isPostFor ⟨"Hub1"⟩)
          [⟨⟨ClassId.userDefined "Pre2", none, none, none⟩,
              some ⟨"Hub2"⟩, none, 0⟩,
            ⟨⟨ClassId.userDefined "Post1", none, none, none⟩,
              none, some ⟨"Hub1"⟩, 0⟩]) ∧
      (List.insertionSort prioLE
          (List.filter (isPreFor ⟨"Hub2"⟩)
            [⟨⟨ClassId.userDefined "Pre2", none, none, none⟩,
                some ⟨"Hub2"⟩, none, 0⟩,
              ⟨⟨ClassId.userDefined "Post1", none, none, none⟩,
                none, some ⟨"Hub1"⟩, 0⟩])).Perm
        (List.filter (isPreFor ⟨"Hub2"⟩)
          [⟨⟨ClassId.userDefined "Pre2", none, none, none⟩,
              some ⟨"Hub2"⟩, none, 0⟩,
            ⟨⟨ClassId.userDefined "Post1", none, none, none⟩,
              none, some ⟨"Hub1"⟩, 0⟩]) :=
  flow_posts_before_next_pres [] [] ⟨"Hub1"⟩ ⟨"Hub2"⟩ [⟨"Hub1"⟩, ⟨"Hub2"⟩]
    [⟨⟨ClassId.userDefined "Pre2", none, none, none⟩, some ⟨"Hub2"⟩, none, 0⟩,
      ⟨⟨ClassId.userDefined "Post1", none, none, none⟩,
        none, some ⟨"Hub1"⟩, 0⟩] rfl

end AnacondaSpokes
